import Mathlib

/-!
Verification development for the research-and-summarization request
pipeline of `agentic-blogger.py` (a Reflex web app that drives a
CrewAI/Groq blog agent).

The shallow embedding models:

* `State` — the Reflex session state class (fields `research_result`,
  `processing`, `result_ready`, source lines 30..34);
* `search_tool` — the DuckDuckGo search tool closure defined inside
  `get_search_tool` (source lines 38..49), as a pure function of the
  query and of the HTTP response the `requests.get` call produced;
* `process_research` — the form submission handler (source lines
  52..157), as a function from the current session state, the submitted
  query text and the behaviour of the external world to the final
  session state together with the ordered trace of observable effects.

External collaborators (the HTTP client, the Groq endpoint, JSON
decoding) are modelled by an explicit environment value `GroqEnv`
describing how the single outbound POST of the handler behaves,
including the points at which the Python code can raise.  The CrewAI
objects (`Agent`, `Task`, `Crew`) built in source lines 70..125 are
pure constructions: the source never calls `research_crew.kickoff()`,
so no method of the crew — in particular no invocation of
`search_tool` — ever runs during `process_research`.  The effect trace
therefore records a search request only where the source issues one,
which is nowhere.
-/

/-- Session state of the app, source lines 30..34.  The class field
defaults of the Python source are the Lean field defaults. -/
structure State where
  research_result : String := ""
  processing : Bool := false
  result_ready : Bool := false
deriving Repr, DecidableEq

/-- State of a fresh session, with every field at its class default. -/
def initState : State := {}

/-- HTTP response of the DuckDuckGo GET issued by the search tool.
`relatedTopics` is the decoded RelatedTopics array of the JSON body:
one entry per topic, `some t` when the topic object carries a Text
field with value `t` and `none` when the Text field is absent. -/
structure SearchResponse where
  status_code : Nat
  relatedTopics : List (Option String)
deriving Repr, DecidableEq

/-- List comprehension of source line 47:
`[topic.get("Text", "") for topic in related_topics if "Text" in topic]`.
Topics without a Text field are dropped; the Text values of the
remaining topics are kept in their original order. -/
def extractedTexts (relatedTopics : List (Option String)) : List String :=
  relatedTopics.filterMap id

/-- URL built in source line 41 for the DuckDuckGo GET. -/
def search_url (query : String) : String :=
  "https://api.duckduckgo.com/?q=" ++ query ++ "&format=json&no_redirect=1"

set_option linter.unusedVariables false in
/-- Search tool closure of source lines 39..49, as a function of the
query and of the HTTP response the GET produced.  On status 200 it
returns the newline join of the extracted Text snippets; on any other
status it returns a fixed diagnostic string.  The query only shapes the
URL of the GET; the returned string depends on the response alone. -/
def search_tool (query : String) (resp : SearchResponse) : String :=
  if resp.status_code = 200 then
    String.intercalate "\n" (extractedTexts resp.relatedTopics)
  else
    "Error fetching data from DuckDuckGo."

/-- One message of the chat-completion request body. -/
structure GroqMessage where
  role : String
  content : String
deriving Repr, DecidableEq

/-- JSON body of the Groq POST, source lines 134..142. -/
structure GroqPayload where
  max_tokens : Nat
  model : String
  messages : List GroqMessage
deriving Repr, DecidableEq

/-- Payload built in source lines 134..142.  The message content is the
f-string of line 140, which interpolates the CURRENT value of the
session field `research_result`. -/
def groqPayload (research_result : String) : GroqPayload :=
  { max_tokens := 1000
    model := "llama3-8b-8192"
    messages := [{ role := "user"
                   content := "Summarize the following research findings: "
                     ++ research_result }] }

/-- Decoded JSON body of the Groq response, restricted to the fields the
source and the specification mention: the top-level summary key that
source line 147 reads, and the content of the first chat-completion
choice message that the specification names as the summary text. -/
structure GroqBody where
  summary : Option String
  choiceContent : Option String
deriving Repr, DecidableEq

/-- Behaviour of the external world during the guarded (try) region of
`process_research`:

* `raiseBefore msg` — some operation before the POST of line 144 raises
  an exception rendered as `msg` (for instance a failure inside the
  Agent, Task or Crew constructors);
* `postRaises msg` — the POST of line 144 is attempted and raises
  (transport failure);
* `response status_code json` — the POST returns a response with the
  given status code; `json` is the outcome of decoding its body, which
  line 147 performs only in the status-200 branch and which can itself
  raise (`Except.error msg`). -/
inductive GroqEnv where
  | raiseBefore (msg : String)
  | postRaises (msg : String)
  | response (status_code : Nat) (json : Except String GroqBody)
deriving Repr

/-- Observable effects of one run of the handler, in order:

* `toast` — the transient notice of line 57;
* `yieldUI shown` — a `yield` statement making the current session
  state observable to the UI (lines 65 and 153);
* `sleep` — the `asyncio.sleep` of line 67;
* `searchGet` — an outbound GET to the search provider (line 42; only
  ever produced by running the search tool);
* `groqPost` — the outbound POST of line 144 with its JSON payload;
* `windowAlert` — the alert yielded by the exception handler
  (line 157). -/
inductive Effect where
  | toast (msg : String)
  | yieldUI (shown : State)
  | sleep (seconds : Nat)
  | searchGet (url : String)
  | groqPost (payload : GroqPayload)
  | windowAlert (msg : String)
deriving Repr, DecidableEq

/-- True exactly on the outbound search GET effect. -/
def Effect.isSearchGet : Effect → Bool
  | Effect.searchGet _ => true
  | _ => false

/-- True exactly on the outbound Groq POST effect. -/
def Effect.isGroqPost : Effect → Bool
  | Effect.groqPost _ => true
  | _ => false

/-- True exactly on the effects that are outbound network calls. -/
def Effect.isNetworkCall (e : Effect) : Bool :=
  e.isSearchGet || e.isGroqPost

/-- Handler `process_research`, source lines 52..157, as a function of
the current session state, the submitted query text and the behaviour
of the external world.  Returns the final session state and the trace
of observable effects.

Faithful points of the translation:

* line 56 tests `if not query_text`, which for a Python string is true
  exactly on the empty string — no stripping of whitespace occurs;
* lines 61..62 reset only `result_ready` and `processing`; the field
  `research_result` is NOT reset;
* lines 70..125 construct the search tool, the two agents, the two
  tasks and the crew, but `research_crew.kickoff()` is never called,
  so these constructions contribute no effect and no state change;
* line 140 interpolates `self.research_result` — the value stored in
  the session state, not any output of the search tool — into the
  message content;
* line 147 reads the top-level key `summary` of the decoded body with
  default `"No summary returned."`;
* lines 148..149 store the fixed sentinel `"Error with Groq API."` on
  a non-200 status;
* lines 151..153 set `processing := false`, `result_ready := true` and
  yield, in BOTH the 200 and the non-200 branch;
* lines 155..157 catch any exception, set `processing := false` and
  yield a window alert embedding the exception text. -/
def process_research (s : State) (query_text : String) (env : GroqEnv) :
    State × List Effect :=
  if query_text = "" then
    (s, [Effect.toast "Please enter a topic to process."])
  else
    let s1 : State := { s with result_ready := false, processing := true }
    let pre : List Effect := [Effect.yieldUI s1, Effect.sleep 1]
    match env with
    | GroqEnv.raiseBefore msg =>
        ({ s1 with processing := false },
         pre ++ [Effect.windowAlert ("Error during research process: " ++ msg)])
    | GroqEnv.postRaises msg =>
        ({ s1 with processing := false },
         pre ++ [Effect.groqPost (groqPayload s1.research_result),
                 Effect.windowAlert ("Error during research process: " ++ msg)])
    | GroqEnv.response status_code json =>
        let posted : List Effect :=
          pre ++ [Effect.groqPost (groqPayload s1.research_result)]
        if status_code = 200 then
          match json with
          | Except.error msg =>
              ({ s1 with processing := false },
               posted ++ [Effect.windowAlert ("Error during research process: " ++ msg)])
          | Except.ok body =>
              let s2 : State :=
                { s1 with
                  research_result := body.summary.getD "No summary returned."
                  processing := false
                  result_ready := true }
              (s2, posted ++ [Effect.yieldUI s2])
        else
          let s2 : State :=
            { s1 with
              research_result := "Error with Groq API."
              processing := false
              result_ready := true }
          (s2, posted ++ [Effect.yieldUI s2])

/-! ## Shared lemmas -/

/-- No run of the handler ever issues a search request: the crew that
owns the search tool is constructed but never kicked off. -/
theorem trace_has_no_searchGet (s : State) (q : String) (env : GroqEnv) :
    (process_research s q env).2.countP Effect.isSearchGet = 0 := by
  unfold process_research
  split
  · rfl
  · cases env with
    | raiseBefore msg => rfl
    | postRaises msg => rfl
    | response status json =>
      dsimp only
      split
      · cases json with
        | error msg => rfl
        | ok body => rfl
      · rfl

/-- Every run of the handler on a non-empty query whose POST returns a
response (of any status) issues exactly one Groq POST, and its payload
interpolates the research_result value STORED in the state at
submission time. -/
theorem trace_groqPost_of_response (s : State) (q : String)
    (status : Nat) (json : Except String GroqBody) (hq : q ≠ "") :
    ((process_research s q (GroqEnv.response status json)).2.countP
        Effect.isGroqPost = 1)
    ∧ Effect.groqPost (groqPayload s.research_result)
        ∈ (process_research s q (GroqEnv.response status json)).2 := by
  unfold process_research
  rw [if_neg hq]
  dsimp only
  split
  · cases json with
    | error msg => exact ⟨rfl, by simp⟩
    | ok body => exact ⟨rfl, by simp⟩
  · exact ⟨rfl, by simp⟩

/-! ## Claims -/

/-- C1: the claim fails on the code.  The crew that owns the search tool
is constructed but never kicked off, so the Search Step never executes,
while the summarization POST is still issued.  For every state, query
and environment the effect trace contains no search request, and on the
concrete failing input (a non-empty query with a successful Groq
response) the trace contains exactly one Groq POST — a summarization
call with zero preceding search executions, contrary to the claim. -/
theorem c1_summarization_runs_without_search :
    (∀ (s : State) (q : String) (env : GroqEnv),
        (process_research s q env).2.countP Effect.isSearchGet = 0)
    ∧ (process_research initState "quantum computing"
        (GroqEnv.response 200
          (Except.ok { summary := some "S", choiceContent := some "S" }))).2.countP
        Effect.isGroqPost = 1 :=
  ⟨fun s q env => trace_has_no_searchGet s q env, by rfl⟩

/-- C2: the claim fails on the code.  The message content of the Groq
POST interpolates the STORED session field research_result, which the
Search Step never populated (the crew never runs).  On a first
submission from a fresh session the content embeds the empty string —
not the search-result text of that request; after a run that stored
"S1", the content of the next request embeds "S1", a value left over
from the earlier request. -/
theorem c2_summarization_embeds_stale_value :
    (groqPayload "S1").messages =
      [{ role := "user",
         content := "Summarize the following research findings: S1" }]
    ∧ (let r1 := process_research initState "quantum computing"
          (GroqEnv.response 200
            (Except.ok { summary := some "S1", choiceContent := some "S1" }))
       Effect.groqPost (groqPayload "") ∈ r1.2
       ∧ r1.1.research_result = "S1"
       ∧ Effect.groqPost (groqPayload "S1") ∈
           (process_research r1.1 "crypto"
             (GroqEnv.response 200
               (Except.ok { summary := some "S2", choiceContent := some "S2" }))).2) := by
  refine ⟨rfl, by decide, by decide, by decide⟩

/-- C10: confirmed.  Whichever point of the guarded region raises — a
constructor before the POST, the POST itself, or the JSON decoding of a
200 response — the handler leaves research_result at the value it had
before the failing operation, leaves result_ready at false (it was
reset at submission start and is only set after every fallible
operation), and resets processing to false; a window alert carrying the
exception text is yielded.  No exception path can present a stale or
half-written summary as ready. -/
theorem c10_exception_resets_only_processing (s : State) (q m : String)
    (hq : q ≠ "") :
    ((process_research s q (GroqEnv.raiseBefore m)).1 =
      { research_result := s.research_result, processing := false,
        result_ready := false })
    ∧ ((process_research s q (GroqEnv.postRaises m)).1 =
      { research_result := s.research_result, processing := false,
        result_ready := false })
    ∧ ((process_research s q (GroqEnv.response 200 (Except.error m))).1 =
      { research_result := s.research_result, processing := false,
        result_ready := false }) := by
  refine ⟨?_, ?_, ?_⟩ <;> (unfold process_research; rw [if_neg hq]; try rfl)

/-- C10 witness: a concrete session whose previous run stored "old" and
had marked the result ready; an exception during the new submission
leaves "old" in place, unready. -/
theorem c10_witness :
    ("ai" ≠ "")
    ∧ ((process_research
          { research_result := "old", processing := false, result_ready := true }
          "ai" (GroqEnv.raiseBefore "boom")).1 =
        { research_result := "old", processing := false, result_ready := false }) :=
  ⟨by decide,
   (c10_exception_resets_only_processing
      { research_result := "old", processing := false, result_ready := true }
      "ai" "boom" (by decide)).1⟩

/-- C3 counterexample: on a non-200 response from the summarization
endpoint — a recognized error sentinel situation — the handler stores
the sentinel string in research_result AND sets result_ready to true:
the error text IS presented as the ready result, so ErrorMessage and
Summary are not mutually exclusive and no Failed (unready) state is
entered. -/
theorem c3_error_sentinel_shown_as_ready :
    (process_research initState "ai"
      (GroqEnv.response 500 (Except.ok { summary := none, choiceContent := none }))).1 =
    { research_result := "Error with Groq API.", processing := false,
      result_ready := true } := rfl

/-- C3 amended: when a step raises an unexpected exception the handler
does move to a Failed-like state — processing and result_ready are both
false and a window alert surfaces the exception text verbatim — but
when the summarization endpoint returns a non-200 status the recognized
error sentinel is stored in research_result and presented as the ready
result (result_ready = true), not as a failure. -/
theorem c3_exception_fails_but_sentinel_is_shown_ready (s : State)
    (q m : String) (hq : q ≠ "") :
    ((process_research s q (GroqEnv.raiseBefore m)).1.result_ready = false
      ∧ (process_research s q (GroqEnv.raiseBefore m)).1.processing = false
      ∧ Effect.windowAlert ("Error during research process: " ++ m)
          ∈ (process_research s q (GroqEnv.raiseBefore m)).2)
    ∧ ((process_research s q (GroqEnv.postRaises m)).1.result_ready = false
      ∧ Effect.windowAlert ("Error during research process: " ++ m)
          ∈ (process_research s q (GroqEnv.postRaises m)).2)
    ∧ (∀ (status : Nat) (json : Except String GroqBody), status ≠ 200 →
        (process_research s q (GroqEnv.response status json)).1 =
          { research_result := "Error with Groq API.", processing := false,
            result_ready := true }) := by
  refine ⟨⟨?_, ?_, ?_⟩, ⟨?_, ?_⟩, ?_⟩
  · unfold process_research; rw [if_neg hq]
  · unfold process_research; rw [if_neg hq]
  · unfold process_research; rw [if_neg hq]; simp
  · unfold process_research; rw [if_neg hq]
  · unfold process_research; rw [if_neg hq]; simp
  · intro status json hs
    unfold process_research; rw [if_neg hq]; dsimp only; rw [if_neg hs]

/-- C3 witness: concrete instances of the amended statement. -/
theorem c3_witness :
    ("news" ≠ "") ∧ (503 ≠ 200)
    ∧ (process_research initState "news"
        (GroqEnv.response 503 (Except.error "x"))).1 =
      { research_result := "Error with Groq API.", processing := false,
        result_ready := true } :=
  ⟨by decide, by decide,
   (c3_exception_fails_but_sentinel_is_shown_ready initState "news" "m"
      (by decide)).2.2 503 (Except.error "x") (by decide)⟩

/-- C4 counterexample: a whitespace-only query (a single space) is NOT
rejected: the run issues an outbound network call, the processing state
becomes observable at the first yield (the Idle to Processing
transition occurs), and the run terminates ready — contrary to the
claim that whitespace-only submissions issue no call and leave the
state unready. -/
theorem c4_whitespace_query_not_rejected :
    ((process_research initState " "
        (GroqEnv.response 200
          (Except.ok { summary := some "S", choiceContent := some "S" }))).2.countP
        Effect.isNetworkCall = 1)
    ∧ Effect.yieldUI
        { research_result := "", processing := true, result_ready := false }
        ∈ (process_research initState " "
            (GroqEnv.response 200
              (Except.ok { summary := some "S", choiceContent := some "S" }))).2
    ∧ (process_research initState " "
        (GroqEnv.response 200
          (Except.ok { summary := some "S", choiceContent := some "S" }))).1.result_ready
        = true := by
  refine ⟨by decide, by decide, by decide⟩

/-- C4 amended: only the EMPTY-string query is rejected: for it the
handler issues no network call, changes no state field (so no
processing transition occurs) and emits only the transient toast
notice.  A whitespace-only query passes the emptiness test of line 56
and proceeds through the pipeline, issuing the summarization call. -/
theorem c4_only_empty_query_rejected :
    (∀ (s : State) (env : GroqEnv),
        process_research s "" env =
          (s, [Effect.toast "Please enter a topic to process."]))
    ∧ (∀ (s : State) (status : Nat) (json : Except String GroqBody),
        (process_research s " " (GroqEnv.response status json)).2.countP
          Effect.isNetworkCall = 1) := by
  constructor
  · intro s env
    rfl
  · intro s status json
    unfold process_research
    rw [if_neg (by decide : ¬(" " = ""))]
    dsimp only
    split
    · cases json with
      | error m => rfl
      | ok b => rfl
    · rfl

/-- C5 counterexample: a 200 search response with zero extractable
snippets makes the search tool return the empty string — not any fixed
"no relevant research results found" message — and a pipeline run still
issues exactly one summarization POST and terminates with the Groq
summary, so the Summarization Step is not skipped. -/
theorem c5_no_empty_results_shortcircuit :
    search_tool "ai" { status_code := 200, relatedTopics := [none] } = ""
    ∧ ((process_research initState "ai"
        (GroqEnv.response 200
          (Except.ok { summary := some "S", choiceContent := some "S" }))).2.countP
        Effect.isGroqPost = 1)
    ∧ (process_research initState "ai"
        (GroqEnv.response 200
          (Except.ok { summary := some "S", choiceContent := some "S" }))).1.research_result
        = "S" := by
  refine ⟨by decide, by decide, by decide⟩

/-- C5 amended: for every 200 search response from which zero snippets
are extractable the search tool returns the empty string, and the
handler contains no empty-results branch at all: every run on a
non-empty query whose POST returns a response issues exactly one
summarization call, whatever the search results would have been. -/
theorem c5_zero_snippets_empty_string_and_no_skip :
    (∀ (q : String) (topics : List (Option String)),
        extractedTexts topics = [] →
        search_tool q { status_code := 200, relatedTopics := topics } = "")
    ∧ (∀ (s : State) (q : String) (status : Nat) (json : Except String GroqBody),
        q ≠ "" →
        (process_research s q (GroqEnv.response status json)).2.countP
          Effect.isGroqPost = 1) := by
  constructor
  · intro q topics h
    unfold search_tool
    rw [if_pos rfl]
    dsimp only
    rw [h]
    rfl
  · intro s q status json hq
    exact (trace_groqPost_of_response s q status json hq).1

/-- C5 witness: concrete instances of the amended statement. -/
theorem c5_witness :
    search_tool "ai" { status_code := 200, relatedTopics := [none, none] } = ""
    ∧ (process_research initState "crypto"
        (GroqEnv.response 404 (Except.error "x"))).2.countP
        Effect.isGroqPost = 1 :=
  ⟨c5_zero_snippets_empty_string_and_no_skip.1 "ai" [none, none] (by decide),
   c5_zero_snippets_empty_string_and_no_skip.2 initState "crypto" 404
     (Except.error "x") (by decide)⟩

/-- C6 counterexample: a 200 search response with 11 extractable
snippets: the tool retains all 11 and returns their join, which differs
from the join of the first 10 that the claim requires. -/
theorem c6_no_cap_of_ten :
    (extractedTexts
      [some "A1", some "A2", some "A3", some "A4", some "A5", some "A6",
       some "A7", some "A8", some "A9", some "A10", some "A11"]).length = 11
    ∧ search_tool "ai"
        { status_code := 200,
          relatedTopics :=
            [some "A1", some "A2", some "A3", some "A4", some "A5", some "A6",
             some "A7", some "A8", some "A9", some "A10", some "A11"] } =
        "A1\nA2\nA3\nA4\nA5\nA6\nA7\nA8\nA9\nA10\nA11"
    ∧ ("A1\nA2\nA3\nA4\nA5\nA6\nA7\nA8\nA9\nA10\nA11" : String) ≠
        "A1\nA2\nA3\nA4\nA5\nA6\nA7\nA8\nA9\nA10" := by
  refine ⟨by decide, by decide, by decide⟩

/-- C6 amended: for every HTTP-200 search response the tool retains ALL
extractable snippets — there is no cap of 10 — in the provider order
and without deduplication: the returned string is the newline join of
the Text fields of every Text-bearing topic; the extracted list has one
entry per Text-bearing topic, and a topic appended to the response
appends its text at the end of the extraction. -/
theorem c6_all_snippets_in_order :
    (∀ (q : String) (topics : List (Option String)),
        search_tool q { status_code := 200, relatedTopics := topics } =
          String.intercalate "\n" (extractedTexts topics))
    ∧ (∀ topics : List (Option String),
        (extractedTexts topics).length = topics.countP (fun o => o.isSome))
    ∧ (∀ (topics : List (Option String)) (t : String),
        extractedTexts (topics ++ [some t]) = extractedTexts topics ++ [t]) := by
  refine ⟨?_, ?_, ?_⟩
  · intro q topics
    unfold search_tool
    rw [if_pos rfl]
  · intro topics
    induction topics with
    | nil => rfl
    | cons h t ih =>
      cases h with
      | none =>
        simpa [extractedTexts, List.countP_cons] using ih
      | some v =>
        simp only [extractedTexts, List.filterMap_cons, id, List.length_cons,
          List.countP_cons, Option.isSome_some, if_pos] at *
        omega
  · intro topics t
    simp [extractedTexts, List.filterMap_append]

/-- C7: the claim fails on the code.  Source line 147 reads the
top-level key `summary` of the response body — a key a chat-completion
response does not carry — instead of the content of the first choice
message, even though the endpoint documented at the top of the source
file is a chat-completions URL.  On a 200 response whose body carries a
choice with message content "The summary text." and no top-level
summary key, the handler displays the fallback "No summary returned."
as the ready result, not the choice content. -/
theorem c7_choice_content_ignored :
    (process_research initState "ai"
      (GroqEnv.response 200
        (Except.ok { summary := none,
                     choiceContent := some "The summary text." }))).1 =
      { research_result := "No summary returned.", processing := false,
        result_ready := true }
    ∧ ("No summary returned." : String) ≠ "The summary text." := by
  refine ⟨rfl, by decide⟩

/-- C8 counterexample: on status 500 the tool returns the fixed string
"Error fetching data from DuckDuckGo.", identical to what it returns on
status 404 and containing no digit at all — the numeric status code is
not embedded in the message text. -/
theorem c8_status_code_not_embedded :
    search_tool "ai" { status_code := 500, relatedTopics := [] } =
      "Error fetching data from DuckDuckGo."
    ∧ search_tool "ai" { status_code := 500, relatedTopics := [] } =
        search_tool "ai" { status_code := 404, relatedTopics := [] }
    ∧ ("Error fetching data from DuckDuckGo.").data.all
        (fun c => !c.isDigit) = true := by
  refine ⟨by decide, by decide, by decide⟩

/-- C8 amended: for every non-200 search response the tool returns
(rather than raises) a diagnostic string, but it is the FIXED string
"Error fetching data from DuckDuckGo.", the same for every status and
embedding no status code. -/
theorem c8_fixed_diagnostic_string (q : String) (resp : SearchResponse)
    (h : resp.status_code ≠ 200) :
    search_tool q resp = "Error fetching data from DuckDuckGo." := by
  unfold search_tool
  rw [if_neg h]

/-- C8 witness: concrete instance of the amended statement. -/
theorem c8_witness :
    (500 ≠ 200)
    ∧ search_tool "quantum" { status_code := 500, relatedTopics := [some "A"] } =
        "Error fetching data from DuckDuckGo." :=
  ⟨by decide,
   c8_fixed_diagnostic_string "quantum"
     { status_code := 500, relatedTopics := [some "A"] } (by decide)⟩

/-- C9 counterexample: after a first run stores "S1", the next
submission does NOT reset research_result — the state shown at its
first yield still carries "S1" — and the new request's outbound POST
embeds "S1", the previous request's stored result, in its message
content. -/
theorem c9_result_persists_across_submissions :
    (let r1 := process_research initState "quantum"
        (GroqEnv.response 200
          (Except.ok { summary := some "S1", choiceContent := none }))
     r1.1.research_result = "S1"
     ∧ (process_research r1.1 "crypto"
          (GroqEnv.response 200
            (Except.ok { summary := some "S2", choiceContent := none }))).2.head? =
        some (Effect.yieldUI
          { research_result := "S1", processing := true, result_ready := false })
     ∧ Effect.groqPost (groqPayload "S1") ∈
         (process_research r1.1 "crypto"
           (GroqEnv.response 200
             (Except.ok { summary := some "S2", choiceContent := none }))).2) := by
  refine ⟨by decide, by decide, by decide⟩

/-- C9 amended: at the start of a new submission only the flags
processing and result_ready are reset (to true and false); the field
research_result keeps the value stored by the previous invocation, is
shown unchanged at the first yield, and is embedded in the message
content of the new request's outbound POST. -/
theorem c9_only_flags_reset (s : State) (q : String) (status : Nat)
    (json : Except String GroqBody) (hq : q ≠ "") :
    (process_research s q (GroqEnv.response status json)).2.head? =
      some (Effect.yieldUI
        { research_result := s.research_result, processing := true,
          result_ready := false })
    ∧ Effect.groqPost (groqPayload s.research_result)
        ∈ (process_research s q (GroqEnv.response status json)).2 := by
  refine ⟨?_, (trace_groqPost_of_response s q status json hq).2⟩
  unfold process_research
  rw [if_neg hq]
  dsimp only
  split
  · cases json with
    | error m => rfl
    | ok b => rfl
  · rfl

/-- C9 witness: concrete instance of the amended statement. -/
theorem c9_witness :
    ("robotics" ≠ "")
    ∧ (process_research
        { research_result := "S1", processing := false, result_ready := true }
        "robotics" (GroqEnv.response 200 (Except.error "x"))).2.head? =
      some (Effect.yieldUI
        { research_result := "S1", processing := true, result_ready := false }) :=
  ⟨by decide,
   (c9_only_flags_reset
      { research_result := "S1", processing := false, result_ready := true }
      "robotics" 200 (Except.error "x") (by decide)).1⟩
